import Mathlib

/-!
Verification development for the guidance post-processing core of a
road-routing engine.

The repository ships the behavioural contract of the core as Gherkin route
scenarios (`features/guidance/collapse.feature`) together with the
Boost.Assert failure handlers (`src/util/assert.cpp`).  The C++ that
implements the classifier / step builder / collapsing engine itself is not
part of the source tree, so the engine below is modelled from the
specification's component design (spec sections 3, 4.4, 4.5, 4.6 and 7) and
is checked against the maneuver lists pinned by the scenarios.
-/

namespace Guidance

/-- Travel mode of an edge or step (spec section 3, `travel_mode`). -/
inductive TMode
  | driving
  | ferryMode
  | walking
deriving DecidableEq, Repr

/-- Maneuver / turn-instruction type (spec section 3, `TurnInstruction`). -/
inductive TType
  | NoTurn
  | NewName
  | Continue
  | Turn
  | Merge
  | OnRamp
  | OffRamp
  | Fork
  | EndOfRoad
  | Notification
  | Roundabout
  | UseLane
  | Suppressed
  | Depart
  | Arrive
deriving DecidableEq, Repr

/-- Turn modifier (spec section 3, `TurnInstruction` modifiers). -/
inductive TModifier
  | UTurn
  | SharpRight
  | Right
  | SlightRight
  | Straight
  | SlightLeft
  | Left
  | SharpLeft
deriving DecidableEq, Repr

/-- A turn instruction is a pair of type and modifier (spec section 3). -/
structure TurnInstruction where
  type : TType
  modifier : TModifier
deriving DecidableEq, Repr

/-- Modelled from the spec: representative signed turn angle of a modifier,
clockwise (right) positive, used to compute the net direction of a merged
pair of maneuvers (spec sections 4.3 rule 5 and 4.5 R1). -/
def repAngle : TModifier → Int
  | .UTurn => 180
  | .SharpRight => 135
  | .Right => 90
  | .SlightRight => 45
  | .Straight => 0
  | .SlightLeft => -45
  | .Left => -90
  | .SharpLeft => -135

/-- Normalize an angle in degrees into the half-open interval (-180, 180]. -/
def normDeg (θ : Int) : Int :=
  let m := θ % 360
  if m > 180 then m - 360 else m

/-- Modelled from the spec: bin a turn angle into a modifier
(spec section 4.3 rule 5). -/
def binModifier (θ : Int) : TModifier :=
  let a := θ.natAbs
  if a < 10 then .Straight
  else if a ≥ 175 then .UTurn
  else if θ > 0 then
    (if a < 45 then .SlightRight else if a < 135 then .Right else .SharpRight)
  else
    (if a < 45 then .SlightLeft else if a < 135 then .Left else .SharpLeft)

/-- Net modifier of two consecutive maneuvers, binned from the sum of their
representative angles (spec section 4.5 R1, "net direction"). -/
def netModifier (m₁ m₂ : TModifier) : TModifier :=
  binModifier (normDeg (repAngle m₁ + repAngle m₂))

/-- One pre-collapse route segment (spec section 3, `Step`).  `instr` is the
turn instruction *into* the step, `location` the node at which that maneuver
happens, `exitLocation` the node at which the step ends.  `crossNames` holds
the names of the roads incident at the step's entry node other than the
in/out roads and their names (used by the segregated-intersection
recognition of spec section 4.5 R1). -/
structure Step where
  name : String
  ref : String := ""
  mode : TMode
  distance : Nat
  duration : Nat := 0
  instr : TurnInstruction
  location : String
  exitLocation : String
  crossNames : List String := []
  important : Bool := false
  is_sliproad : Bool := false
  is_link : Bool := false
  lane_description_changed : Bool := false
deriving DecidableEq, Repr

/-- A driver-facing maneuver (spec section 3, `Maneuver`). -/
structure Maneuver where
  location : String
  mtype : TType
  modifier : TModifier
  name : String
  mode : TMode
deriving DecidableEq, Repr

/-- Turn types that may open a segregated pair (spec section 4.5 R1). -/
def isTurnish : TType → Bool
  | .Turn | .Fork | .EndOfRoad | .NewName => true
  | _ => false

/-- Turn types that may close a segregated pair (spec section 4.5 R1). -/
def isTurnOrNewName : TType → Bool
  | .Turn | .NewName => true
  | _ => false

/-- Very-slight or straight modifiers (spec section 4.5 R4). -/
def isStraightish : TModifier → Bool
  | .Straight | .SlightLeft | .SlightRight => true
  | _ => false

/-- Modelled from the spec: two adjacent steps straddle a segregated
intersection when the cross roads at both turn nodes share a name
(spec section 4.5 R1, "recognized by shared cross-road names at both
nodes"). -/
def shareCrossNames (a b : Step) : Bool :=
  a.crossNames.any fun n => b.crossNames.contains n

/-- Geometry merge of two adjacent steps keeping the first step's identity:
concatenated polyline, summed distance and duration (spec section 4.5,
"geometry is merged by concatenating polylines and summing
distance/duration"). -/
def mergeInto (a b : Step) : Step :=
  { a with
    distance := a.distance + b.distance
    duration := a.duration + b.duration
    exitLocation := b.exitLocation }

/-- Modelled from the spec: rule R1, segregated pair merge.  The missing
collapsing engine's first rule (spec section 4.5 R1): a turnish step
followed after a short (< 30 m) segment by a second half-turn across a
segregated intersection collapses to one maneuver of the net direction,
named after the destination street. -/
def tryR1 : List Step → Option (List Step)
  | a :: b :: rest =>
    if isTurnish a.instr.type ∧ isTurnOrNewName b.instr.type ∧
        a.distance < 30 ∧ a.mode = b.mode ∧ shareCrossNames a b then
      some ({ b with
        instr := ⟨.Turn, netModifier a.instr.modifier b.instr.modifier⟩
        location := a.location
        distance := a.distance + b.distance
        duration := a.duration + b.duration
        crossNames := a.crossNames } :: rest)
    else none
  | _ => none

/-- Modelled from the spec: rule R2, forced u-turn preservation
(spec section 4.5 R2).  When the pair of half-turns after step `a` has a
net bearing change of at least 175 degrees and the destination edge lies on
the opposite half of the same named road (`a.name = c.name`, the median
unnamed or carrying that same name), the pair is replaced by a `Continue`
`UTurn` maneuver at the first turn's node.  Scenario "U-Turn onto a Ferry"
pins this merge at a 60 m median, so no distance cap is imposed here (spec
section 9 treats the R1 metres as a configuration constant). -/
def tryR2 : List Step → Option (List Step)
  | a :: b :: c :: rest =>
    if a.mode = b.mode ∧ b.mode = c.mode ∧
        isTurnOrNewName b.instr.type ∧ isTurnOrNewName c.instr.type ∧
        175 ≤ (normDeg (repAngle b.instr.modifier + repAngle c.instr.modifier)).natAbs ∧
        a.name = c.name ∧ (b.name = "" ∨ b.name = a.name) then
      some (a :: { c with
        instr := ⟨.Continue, .UTurn⟩
        location := b.location
        distance := b.distance + c.distance
        duration := b.duration + c.duration } :: rest)
    else none
  | _ => none

/-- Modelled from the spec: rule R3, sliproad collapse (spec section 4.5 R3).
A sliproad step and its successor collapse to one turn toward the cross
street, named after it. -/
def tryR3 : List Step → Option (List Step)
  | a :: b :: rest =>
    if a.is_sliproad = true ∧ a.mode = b.mode then
      some ({ b with
        instr := ⟨.Turn, netModifier a.instr.modifier b.instr.modifier⟩
        location := a.location
        distance := a.distance + b.distance
        duration := a.duration + b.duration } :: rest)
    else none
  | _ => none

/-- Modelled from the spec: rule R4, name-change suppression across a
distinguished middle segment (spec section 4.5 R4 and section 8 S2).  The
window `(a, b, c)` collapses to one step when all three share a travel mode,
the flanking names agree, the middle name differs from them, the middle is
not marked important (R7 exemption), and either the middle is unnamed or
both boundary modifiers are straight / very slight.  The spec's prose
states the precondition only for an unnamed middle; scenario "Bridge on
unnamed road" pins the suppression of a *named* straight middle between
unnamed flanks as well, which the disjunction covers.  A travel-mode change
inside the window blocks the rule (spec R4 exception / R10). -/
def tryR4 : List Step → Option (List Step)
  | a :: b :: c :: rest =>
    if a.mode = b.mode ∧ b.mode = c.mode ∧ b.important = false ∧
        a.name = c.name ∧ ¬ b.name = a.name ∧
        (b.name = "" ∨
          (isStraightish b.instr.modifier ∧ isStraightish c.instr.modifier)) then
      some ({ a with
        distance := a.distance + b.distance + c.distance
        duration := a.duration + b.duration + c.duration
        exitLocation := c.exitLocation } :: rest)
    else none
  | _ => none

/-- Rule R4 with the precondition exactly as the spec's prose states it
(spec section 4.5 R4, first sentence): the middle step's name must be
*empty*, its modifier straight or very slight, mode unchanged, and the
flanking names equal.  Kept separate so the behaviour of the prose
precondition can be compared with the scenario-pinned one of `tryR4`. -/
def tryR4strict : List Step → Option (List Step)
  | a :: b :: c :: rest =>
    if a.mode = b.mode ∧ b.mode = c.mode ∧ b.important = false ∧
        b.name = "" ∧ isStraightish b.instr.modifier ∧
        a.name = c.name ∧ ¬ b.name = a.name then
      some ({ a with
        distance := a.distance + b.distance + c.distance
        duration := a.duration + b.duration + c.duration
        exitLocation := c.exitLocation } :: rest)
    else none
  | _ => none

/-- Modelled from the spec: rule R5, silent name change (spec section 4.5
R5).  Adjacent steps with the same name, ref and mode joined by a
NoTurn / straight maneuver merge; `UseLane` boundaries are left to R6
and `Notify` boundaries surface mode changes and are never silent
(spec R10 / invariant I5), and an important step is exempt (R7). -/
def tryR5 : List Step → Option (List Step)
  | a :: b :: rest =>
    if a.name = b.name ∧ a.ref = b.ref ∧ a.mode = b.mode ∧
        b.important = false ∧
        (b.instr.type = .NoTurn ∨ b.instr.modifier = .Straight) ∧
        ¬ b.instr.type = .UseLane ∧ ¬ b.instr.type = .Notification then
      some (mergeInto a b :: rest)
    else none
  | _ => none

/-- Modelled from the spec: rule R6, `UseLane` suppression (spec section 4.5
R6).  A `UseLane` step whose lane description did not change merges into its
predecessor; a travel-mode change blocks the merge (spec R10). -/
def tryR6 : List Step → Option (List Step)
  | a :: b :: rest =>
    if b.instr.type = .UseLane ∧ b.lane_description_changed = false ∧
        a.mode = b.mode then
      some (mergeInto a b :: rest)
    else none
  | _ => none

/-- Modelled from the spec: rule R9, ramp chain (spec section 4.5 R9).
`OnRamp` followed by `Merge` in the same mode collapses to the single
`Merge` the driver experiences. -/
def tryR9 : List Step → Option (List Step)
  | a :: b :: rest =>
    if a.instr.type = .OnRamp ∧ b.instr.type = .Merge ∧ a.mode = b.mode then
      some ({ b with
        location := a.location
        distance := a.distance + b.distance
        duration := a.duration + b.duration } :: rest)
    else none
  | _ => none

/-- Try the rewrite rules at the head of the given suffix of the step list,
in the spec's fixed numeric priority order (spec section 4.5, "rules are
tried in fixed numeric order").  R7 acts as an exemption inside R4/R5, R8 is
the *absence* of any rule merging adjacent non-segregated sharp turns, and
R10 is realised as the travel-mode guards of every merging rule. -/
def tryRulesHere (l : List Step) : Option (List Step) :=
  match tryR1 l with
  | some r => some r
  | none =>
    match tryR2 l with
    | some r => some r
    | none =>
      match tryR3 l with
      | some r => some r
      | none =>
        match tryR4 l with
        | some r => some r
        | none =>
          match tryR5 l with
          | some r => some r
          | none =>
            match tryR6 l with
            | some r => some r
            | none => tryR9 l

/-- Variant of `tryRulesHere` that uses the prose precondition `tryR4strict`
in place of `tryR4`; used to compare the spec's stated R4 precondition with
the scenario-pinned behaviour. -/
def tryRulesHereStrict (l : List Step) : Option (List Step) :=
  match tryR1 l with
  | some r => some r
  | none =>
    match tryR2 l with
    | some r => some r
    | none =>
      match tryR3 l with
      | some r => some r
      | none =>
        match tryR4strict l with
        | some r => some r
        | none =>
          match tryR5 l with
          | some r => some r
          | none =>
            match tryR6 l with
            | some r => some r
            | none => tryR9 l

/-- One scan: find the leftmost window at which some rule applies and apply
the first applicable rule there (spec section 4.5, "applies the first
applicable rule at the leftmost window"); `none` when the scan produces no
rewrite. -/
def scanWith (f : List Step → Option (List Step)) : List Step → Option (List Step)
  | [] => none
  | s :: rest =>
    match f (s :: rest) with
    | some l => some l
    | none =>
      match scanWith f rest with
      | some rest' => some (s :: rest')
      | none => none

/-- One scan of the modelled engine. -/
def scanOnce : List Step → Option (List Step) :=
  scanWith tryRulesHere

/-- One scan of the strict-R4 engine variant. -/
def scanOnceStrict : List Step → Option (List Step) :=
  scanWith tryRulesHereStrict

/-- Fuel-driven fixed-point driver: repeat scans until one produces no
rewrite (spec section 4.5, "it terminates when a full scan produces no
rewrite").  Because every rule strictly shrinks the step list, fuel equal to
the list length always suffices. -/
def runEngine (f : List Step → Option (List Step)) : Nat → List Step → List Step
  | 0, l => l
  | n + 1, l =>
    match scanWith f l with
    | none => l
    | some l' => runEngine f n l'

/-- The collapsing engine C5: the local-rewrite fixed point of the rule set
(spec section 4.5). -/
def collapse (l : List Step) : List Step :=
  runEngine tryRulesHere l.length l

/-- The collapsing engine with the prose R4 precondition. -/
def collapseStrict (l : List Step) : List Step :=
  runEngine tryRulesHereStrict l.length l

/-- Maneuver emitted for a retained non-initial step: the turn instruction
into the step, at the step's entry node, named after the road being entered
(spec section 4.6). -/
def maneuverOfStep (s : Step) : Maneuver :=
  ⟨s.location, s.instr.type, s.instr.modifier, s.name, s.mode⟩

/-- The maneuver assembler C6: prepend `Depart` at the first step's entry
location and append `Arrive` at the final step's exit location (spec
section 4.6). -/
def assemble : List Step → List Maneuver
  | [] => []
  | s :: rest =>
    let fin := (s :: rest).getLastD s
    ⟨s.location, .Depart, .Straight, s.name, s.mode⟩ ::
      (rest.map maneuverOfStep ++
        [⟨fin.exitLocation, .Arrive, .Straight, fin.name, fin.mode⟩])

end Guidance

namespace Guidance

/-- Pre-collapse steps of route `a,l` of scenario "Segregated Intersection,
Cross Belonging to Single Street": westbound on "first" from `a`, one turn
right at `b` onto "second" up to `l` (grid size 20 m). -/
def segAL : List Step :=
  [ { name := "first", mode := .driving, distance := 80,
      instr := ⟨.Depart, .Straight⟩, location := "a", exitLocation := "b" },
    { name := "second", mode := .driving, distance := 40,
      instr := ⟨.Turn, .Right⟩, location := "b", exitLocation := "l" } ]

/-- Maneuvers the scenario pins for route `a,l`:
`depart,turn right,arrive` at locations `a,b,l`, route names
`first,second,second`. -/
def segALExpected : List Maneuver :=
  [ ⟨"a", .Depart, .Straight, "first", .driving⟩,
    ⟨"b", .Turn, .Right, "second", .driving⟩,
    ⟨"l", .Arrive, .Straight, "second", .driving⟩ ]

/-- Pre-collapse steps of route `a,h` of the same scenario: westbound on
"first" to `c`, left across the 20 m median `cf` (still named "first", cross
road "second" at both `c` and `f`), left again at `f`, eastbound to `h`. -/
def segAH : List Step :=
  [ { name := "first", mode := .driving, distance := 120,
      instr := ⟨.Depart, .Straight⟩, location := "a", exitLocation := "c" },
    { name := "first", mode := .driving, distance := 20,
      instr := ⟨.Turn, .Left⟩, location := "c", exitLocation := "f",
      crossNames := ["second"] },
    { name := "first", mode := .driving, distance := 120,
      instr := ⟨.Turn, .Left⟩, location := "f", exitLocation := "h",
      crossNames := ["second"] } ]

/-- Maneuvers the scenario pins for route `a,h`:
`depart,continue uturn,arrive` at locations `a,c,h`, route names
`first,first,first`. -/
def segAHExpected : List Maneuver :=
  [ ⟨"a", .Depart, .Straight, "first", .driving⟩,
    ⟨"c", .Continue, .UTurn, "first", .driving⟩,
    ⟨"h", .Arrive, .Straight, "first", .driving⟩ ]

example : assemble (collapse segAL) = segALExpected := by decide
example : assemble (collapse segAH) = segAHExpected := by decide

/-- Pre-collapse steps of scenario "Bridge on unnamed road", route `a,d`:
collinear unnamed - "Bridge" - unnamed, all straight. -/
def bridgeSteps : List Step :=
  [ { name := "", mode := .driving, distance := 40,
      instr := ⟨.Depart, .Straight⟩, location := "a", exitLocation := "b" },
    { name := "Bridge", mode := .driving, distance := 160,
      instr := ⟨.NewName, .Straight⟩, location := "b", exitLocation := "c" },
    { name := "", mode := .driving, distance := 40,
      instr := ⟨.NewName, .Straight⟩, location := "c", exitLocation := "d" } ]

/-- Maneuvers the scenario pins for the bridge route: `depart,arrive`. -/
def bridgeExpected : List Maneuver :=
  [ ⟨"a", .Depart, .Straight, "", .driving⟩,
    ⟨"d", .Arrive, .Straight, "", .driving⟩ ]

example : assemble (collapse bridgeSteps) = bridgeExpected := by decide
example : assemble (collapseStrict bridgeSteps) ≠ bridgeExpected := by decide
example : (assemble (collapseStrict bridgeSteps)).length = 4 := by decide

/-- Pre-collapse steps of scenario "No Name During Turns", route `a,d`:
"road", a 20 m unnamed jog (right then left), "road" again. -/
def noNameSteps : List Step :=
  [ { name := "road", mode := .driving, distance := 40,
      instr := ⟨.Depart, .Straight⟩, location := "a", exitLocation := "b" },
    { name := "", mode := .driving, distance := 20,
      instr := ⟨.Turn, .Right⟩, location := "b", exitLocation := "c" },
    { name := "road", mode := .driving, distance := 40,
      instr := ⟨.Turn, .Left⟩, location := "c", exitLocation := "d" } ]

/-- Maneuvers the scenario pins: `depart,arrive`. -/
def noNameExpected : List Maneuver :=
  [ ⟨"a", .Depart, .Straight, "road", .driving⟩,
    ⟨"d", .Arrive, .Straight, "road", .driving⟩ ]

example : assemble (collapse noNameSteps) = noNameExpected := by decide

/-- Pre-collapse steps of scenario "No Name During Turns - Ferry": the same
unnamed jog, but the middle segment is a ferry, so the classifier surfaces
both mode changes as `Notification` maneuvers (spec section 4.3). -/
def ferryJogSteps : List Step :=
  [ { name := "road", mode := .driving, distance := 40,
      instr := ⟨.Depart, .Straight⟩, location := "a", exitLocation := "b" },
    { name := "", mode := .ferryMode, distance := 20,
      instr := ⟨.Notification, .Right⟩, location := "b", exitLocation := "c" },
    { name := "road", mode := .driving, distance := 40,
      instr := ⟨.Notification, .Left⟩, location := "c", exitLocation := "d" } ]

/-- Maneuvers the scenario pins:
`depart,notification right,notification left,arrive`. -/
def ferryJogExpected : List Maneuver :=
  [ ⟨"a", .Depart, .Straight, "road", .driving⟩,
    ⟨"b", .Notification, .Right, "", .ferryMode⟩,
    ⟨"c", .Notification, .Left, "road", .driving⟩,
    ⟨"d", .Arrive, .Straight, "road", .driving⟩ ]

example : assemble (collapse ferryJogSteps) = ferryJogExpected := by decide

/-- Pre-collapse steps of scenario "Don't collapse different travel modes",
route `a,f`: road - ferry - road - ferry - road, every boundary a mode
change. -/
def modesSteps : List Step :=
  [ { name := "road", mode := .driving, distance := 20,
      instr := ⟨.Depart, .Straight⟩, location := "a", exitLocation := "b" },
    { name := "", mode := .ferryMode, distance := 40,
      instr := ⟨.Notification, .Straight⟩, location := "b", exitLocation := "c" },
    { name := "road", mode := .driving, distance := 40,
      instr := ⟨.Notification, .Straight⟩, location := "c", exitLocation := "d" },
    { name := "", mode := .ferryMode, distance := 40,
      instr := ⟨.Notification, .Straight⟩, location := "d", exitLocation := "e" },
    { name := "road", mode := .driving, distance := 20,
      instr := ⟨.Notification, .Straight⟩, location := "e", exitLocation := "f" } ]

example : collapse modesSteps = modesSteps := by decide

/-- Pre-collapse steps of scenario "Close Turns - Don't Collapse", route
`a,d`: "in" to `b`, 40 m on "cross" (turn right at `b`), then "out" (turn
left at `c`).  The cross roads at `b` and `c` share no name, so the pair is
not segregated. -/
def closeTurnsSteps : List Step :=
  [ { name := "in", mode := .driving, distance := 20,
      instr := ⟨.Depart, .Straight⟩, location := "a", exitLocation := "b" },
    { name := "cross", mode := .driving, distance := 40,
      instr := ⟨.Turn, .Right⟩, location := "b", exitLocation := "c",
      crossNames := ["straight"] },
    { name := "out", mode := .driving, distance := 20,
      instr := ⟨.Turn, .Left⟩, location := "c", exitLocation := "d",
      crossNames := ["reverse"] } ]

/-- Maneuvers the scenario pins: `depart,turn right,turn left,arrive` at
locations `a,b,c,d`. -/
def closeTurnsExpected : List Maneuver :=
  [ ⟨"a", .Depart, .Straight, "in", .driving⟩,
    ⟨"b", .Turn, .Right, "cross", .driving⟩,
    ⟨"c", .Turn, .Left, "out", .driving⟩,
    ⟨"d", .Arrive, .Straight, "out", .driving⟩ ]

example : assemble (collapse closeTurnsSteps) = closeTurnsExpected := by decide

/-- Pre-collapse steps of scenario "Do not collapse UseLane step when lanes
change", route `a,e`: one road "main", a `UseLane` boundary at `c` where the
lane description changes from five lanes to three. -/
def laneChangeSteps : List Step :=
  [ { name := "main", mode := .driving, distance := 120,
      instr := ⟨.Depart, .Straight⟩, location := "a", exitLocation := "c" },
    { name := "main", mode := .driving, distance := 120,
      instr := ⟨.UseLane, .Straight⟩, location := "c", exitLocation := "e",
      lane_description_changed := true } ]

/-- Maneuvers the scenario pins: `depart,use lane straight,arrive` at
locations `a,c,e`. -/
def laneChangeExpected : List Maneuver :=
  [ ⟨"a", .Depart, .Straight, "main", .driving⟩,
    ⟨"c", .UseLane, .Straight, "main", .driving⟩,
    ⟨"e", .Arrive, .Straight, "main", .driving⟩ ]

/-- Pre-collapse steps of scenario "But _do_ collapse UseLane step when lanes
stay the same": identical, except the lane description does not change. -/
def laneSameSteps : List Step :=
  [ { name := "main", mode := .driving, distance := 120,
      instr := ⟨.Depart, .Straight⟩, location := "a", exitLocation := "c" },
    { name := "main", mode := .driving, distance := 120,
      instr := ⟨.UseLane, .Straight⟩, location := "c", exitLocation := "e",
      lane_description_changed := false } ]

/-- Maneuvers the scenario pins for identical lane sets: `depart,arrive`. -/
def laneSameExpected : List Maneuver :=
  [ ⟨"a", .Depart, .Straight, "main", .driving⟩,
    ⟨"e", .Arrive, .Straight, "main", .driving⟩ ]

example : assemble (collapse laneChangeSteps) = laneChangeExpected := by decide
example : assemble (collapse laneSameSteps) = laneSameExpected := by decide

/-- Pre-collapse steps of scenario "U-Turn onto a Ferry", route `k,j`:
"on" to the ferry at `g`, ferry to `a`, "road" east to `b`, a 60 m unnamed
median crossing north (turn left at `b`), "road" west (turn left at `c`)
to `d`, ferry at `d`, "off" from `e` to `j`.  At `d` another allowed exit
(the service road `di`) makes the classifier emit a genuine `Turn`; the
other three mode changes surface as `Notification`s. -/
def ferryUTurnSteps : List Step :=
  [ { name := "on", mode := .driving, distance := 40,
      instr := ⟨.Depart, .Straight⟩, location := "k", exitLocation := "g" },
    { name := "ferry", mode := .ferryMode, distance := 200,
      instr := ⟨.Notification, .Straight⟩, location := "g", exitLocation := "a" },
    { name := "road", mode := .driving, distance := 20,
      instr := ⟨.Notification, .Straight⟩, location := "a", exitLocation := "b" },
    { name := "", mode := .driving, distance := 60,
      instr := ⟨.Turn, .Left⟩, location := "b", exitLocation := "c" },
    { name := "road", mode := .driving, distance := 20,
      instr := ⟨.Turn, .Left⟩, location := "c", exitLocation := "d" },
    { name := "ferry", mode := .ferryMode, distance := 200,
      instr := ⟨.Turn, .Straight⟩, location := "d", exitLocation := "e" },
    { name := "off", mode := .driving, distance := 40,
      instr := ⟨.Notification, .Straight⟩, location := "e", exitLocation := "j" } ]

/-- Maneuvers the scenario pins: `depart, notification straight,
notification straight, continue uturn, turn straight, notification straight,
arrive` at locations `k,g,a,b,d,e,j`. -/
def ferryUTurnExpected : List Maneuver :=
  [ ⟨"k", .Depart, .Straight, "on", .driving⟩,
    ⟨"g", .Notification, .Straight, "ferry", .ferryMode⟩,
    ⟨"a", .Notification, .Straight, "road", .driving⟩,
    ⟨"b", .Continue, .UTurn, "road", .driving⟩,
    ⟨"d", .Turn, .Straight, "ferry", .ferryMode⟩,
    ⟨"e", .Notification, .Straight, "off", .driving⟩,
    ⟨"j", .Arrive, .Straight, "off", .driving⟩ ]

example : assemble (collapse ferryUTurnSteps) = ferryUTurnExpected := by decide

end Guidance

namespace Guidance

/-- Collapse adjacent duplicates in a list of travel modes: the sequence of
mode *runs* along the route.  Mode boundaries of a step list are exactly the
boundaries between runs. -/
def dedupAdj : List TMode → List TMode
  | [] => []
  | [m] => [m]
  | m :: m' :: t => if m = m' then dedupAdj (m' :: t) else m :: dedupAdj (m' :: t)

theorem dedupAdj_dup (m : TMode) (t : List TMode) :
    dedupAdj (m :: m :: t) = dedupAdj (m :: t) := by
  simp [dedupAdj]

theorem dedupAdj_cons_congr {t t' : List TMode} (m : TMode)
    (hh : t.head? = t'.head?) (hd : dedupAdj t = dedupAdj t') :
    dedupAdj (m :: t) = dedupAdj (m :: t') := by
  cases t with
  | nil =>
    cases t' with
    | nil => rfl
    | cons h2 t2 => simp at hh
  | cons h1 t1 =>
    cases t' with
    | nil => simp at hh
    | cons h2 t2 =>
      simp only [List.head?_cons, Option.some.injEq] at hh
      subst hh
      simp only [dedupAdj, hd]

/-- What a single application of a collapsing rewrite guarantees: it
strictly shrinks the step list, keeps the leading travel mode, and keeps
the sequence of travel-mode runs (so no mode boundary is collapsed away,
spec invariant I5 / rule R10). -/
def GoodRewrite (l l' : List Step) : Prop :=
  l'.length < l.length ∧
  (l'.map Step.mode).head? = (l.map Step.mode).head? ∧
  dedupAdj (l'.map Step.mode) = dedupAdj (l.map Step.mode)

theorem good_merge2 (a b M : Step) (rest : List Step)
    (hM : M.mode = b.mode) (hab : a.mode = b.mode) :
    GoodRewrite (a :: b :: rest) (M :: rest) := by
  refine ⟨by simp, by simp [hM, hab], ?_⟩
  simp only [List.map_cons, hM, hab]
  exact (dedupAdj_dup b.mode (rest.map Step.mode)).symm

theorem good_merge3 (a b c M : Step) (rest : List Step)
    (hM : M.mode = a.mode) (hab : a.mode = b.mode) (hbc : b.mode = c.mode) :
    GoodRewrite (a :: b :: c :: rest) (M :: rest) := by
  refine ⟨by simp, by simp [hM, hab, hbc], ?_⟩
  simp only [List.map_cons, hM, hab, hbc]
  rw [dedupAdj_dup, dedupAdj_dup]

theorem good_context_merge (a b c M : Step) (rest : List Step)
    (hM : M.mode = b.mode) (hbc : b.mode = c.mode) :
    GoodRewrite (a :: b :: c :: rest) (a :: M :: rest) := by
  refine ⟨by simp, by simp, ?_⟩
  simp only [List.map_cons, hM, hbc]
  refine dedupAdj_cons_congr a.mode (by simp) ?_
  exact (dedupAdj_dup c.mode (rest.map Step.mode)).symm

theorem tryR1_good {l l' : List Step} (h : tryR1 l = some l') : GoodRewrite l l' := by
  match l with
  | [] => simp [tryR1] at h
  | [a] => simp [tryR1] at h
  | a :: b :: rest =>
    rw [tryR1] at h
    split at h
    · rename_i hg
      injection h with h2
      subst h2
      exact good_merge2 a b _ rest rfl hg.2.2.2.1
    · exact Option.noConfusion h

theorem tryR2_good {l l' : List Step} (h : tryR2 l = some l') : GoodRewrite l l' := by
  match l with
  | [] => simp [tryR2] at h
  | [a] => simp [tryR2] at h
  | [a, b] => simp [tryR2] at h
  | a :: b :: c :: rest =>
    rw [tryR2] at h
    split at h
    · rename_i hg
      injection h with h2
      subst h2
      exact good_context_merge a b c _ rest hg.2.1.symm hg.2.1
    · exact Option.noConfusion h

theorem tryR3_good {l l' : List Step} (h : tryR3 l = some l') : GoodRewrite l l' := by
  match l with
  | [] => simp [tryR3] at h
  | [a] => simp [tryR3] at h
  | a :: b :: rest =>
    rw [tryR3] at h
    split at h
    · rename_i hg
      injection h with h2
      subst h2
      exact good_merge2 a b _ rest rfl hg.2
    · exact Option.noConfusion h

theorem tryR4_good {l l' : List Step} (h : tryR4 l = some l') : GoodRewrite l l' := by
  match l with
  | [] => simp [tryR4] at h
  | [a] => simp [tryR4] at h
  | [a, b] => simp [tryR4] at h
  | a :: b :: c :: rest =>
    rw [tryR4] at h
    split at h
    · rename_i hg
      injection h with h2
      subst h2
      exact good_merge3 a b c _ rest rfl hg.1 hg.2.1
    · exact Option.noConfusion h

theorem tryR4strict_good {l l' : List Step} (h : tryR4strict l = some l') :
    GoodRewrite l l' := by
  match l with
  | [] => simp [tryR4strict] at h
  | [a] => simp [tryR4strict] at h
  | [a, b] => simp [tryR4strict] at h
  | a :: b :: c :: rest =>
    rw [tryR4strict] at h
    split at h
    · rename_i hg
      injection h with h2
      subst h2
      exact good_merge3 a b c _ rest rfl hg.1 hg.2.1
    · exact Option.noConfusion h

theorem tryR5_good {l l' : List Step} (h : tryR5 l = some l') : GoodRewrite l l' := by
  match l with
  | [] => simp [tryR5] at h
  | [a] => simp [tryR5] at h
  | a :: b :: rest =>
    rw [tryR5] at h
    split at h
    · rename_i hg
      injection h with h2
      subst h2
      exact good_merge2 a b _ rest hg.2.2.1 hg.2.2.1
    · exact Option.noConfusion h

theorem tryR6_good {l l' : List Step} (h : tryR6 l = some l') : GoodRewrite l l' := by
  match l with
  | [] => simp [tryR6] at h
  | [a] => simp [tryR6] at h
  | a :: b :: rest =>
    rw [tryR6] at h
    split at h
    · rename_i hg
      injection h with h2
      subst h2
      exact good_merge2 a b _ rest hg.2.2 hg.2.2
    · exact Option.noConfusion h

theorem tryR9_good {l l' : List Step} (h : tryR9 l = some l') : GoodRewrite l l' := by
  match l with
  | [] => simp [tryR9] at h
  | [a] => simp [tryR9] at h
  | a :: b :: rest =>
    rw [tryR9] at h
    split at h
    · rename_i hg
      injection h with h2
      subst h2
      exact good_merge2 a b _ rest rfl hg.2.2
    · exact Option.noConfusion h

theorem tryRulesHere_good {l l' : List Step} (h : tryRulesHere l = some l') :
    GoodRewrite l l' := by
  unfold tryRulesHere at h
  cases h1 : tryR1 l with
  | some r => rw [h1] at h; injection h with h; subst h; exact tryR1_good h1
  | none =>
  rw [h1] at h
  cases h2 : tryR2 l with
  | some r => rw [h2] at h; injection h with h; subst h; exact tryR2_good h2
  | none =>
  rw [h2] at h
  cases h3 : tryR3 l with
  | some r => rw [h3] at h; injection h with h; subst h; exact tryR3_good h3
  | none =>
  rw [h3] at h
  cases h4 : tryR4 l with
  | some r => rw [h4] at h; injection h with h; subst h; exact tryR4_good h4
  | none =>
  rw [h4] at h
  cases h5 : tryR5 l with
  | some r => rw [h5] at h; injection h with h; subst h; exact tryR5_good h5
  | none =>
  rw [h5] at h
  cases h6 : tryR6 l with
  | some r => rw [h6] at h; injection h with h; subst h; exact tryR6_good h6
  | none =>
  rw [h6] at h
  exact tryR9_good h

theorem tryRulesHereStrict_good {l l' : List Step} (h : tryRulesHereStrict l = some l') :
    GoodRewrite l l' := by
  unfold tryRulesHereStrict at h
  cases h1 : tryR1 l with
  | some r => rw [h1] at h; injection h with h; subst h; exact tryR1_good h1
  | none =>
  rw [h1] at h
  cases h2 : tryR2 l with
  | some r => rw [h2] at h; injection h with h; subst h; exact tryR2_good h2
  | none =>
  rw [h2] at h
  cases h3 : tryR3 l with
  | some r => rw [h3] at h; injection h with h; subst h; exact tryR3_good h3
  | none =>
  rw [h3] at h
  cases h4 : tryR4strict l with
  | some r => rw [h4] at h; injection h with h; subst h; exact tryR4strict_good h4
  | none =>
  rw [h4] at h
  cases h5 : tryR5 l with
  | some r => rw [h5] at h; injection h with h; subst h; exact tryR5_good h5
  | none =>
  rw [h5] at h
  cases h6 : tryR6 l with
  | some r => rw [h6] at h; injection h with h; subst h; exact tryR6_good h6
  | none =>
  rw [h6] at h
  exact tryR9_good h

end Guidance

namespace Guidance

theorem scanWith_good {f : List Step → Option (List Step)}
    (hf : ∀ l l', f l = some l' → GoodRewrite l l') :
    ∀ {l l'}, scanWith f l = some l' → GoodRewrite l l' := by
  intro l
  induction l with
  | nil => intro l' h; simp [scanWith] at h
  | cons s rest ih =>
    intro l' h
    rw [scanWith] at h
    cases h1 : f (s :: rest) with
    | some r => rw [h1] at h; injection h with h; subst h; exact hf _ _ h1
    | none =>
      rw [h1] at h
      cases h2 : scanWith f rest with
      | none => rw [h2] at h; exact Option.noConfusion h
      | some rest' =>
        rw [h2] at h; injection h with h; subst h
        obtain ⟨hl, hh, hd⟩ := ih h2
        refine ⟨by simpa using Nat.succ_lt_succ hl, by simp, ?_⟩
        simp only [List.map_cons]
        exact dedupAdj_cons_congr s.mode hh hd

theorem scanOnce_good {l l' : List Step} (h : scanOnce l = some l') : GoodRewrite l l' :=
  scanWith_good (fun _ _ hx => tryRulesHere_good hx) h

theorem scanOnceStrict_good {l l' : List Step} (h : scanOnceStrict l = some l') :
    GoodRewrite l l' :=
  scanWith_good (fun _ _ hx => tryRulesHereStrict_good hx) h

theorem scanOnce_shrink {l l' : List Step} (h : scanOnce l = some l') :
    l'.length < l.length :=
  (scanOnce_good h).1

theorem runEngine_of_none {f : List Step → Option (List Step)} {n : Nat} {l : List Step}
    (h : scanWith f l = none) : runEngine f n l = l := by
  cases n with
  | zero => rfl
  | succ n => simp [runEngine, h]

theorem runEngine_fixed {f : List Step → Option (List Step)}
    (hs : ∀ l l', scanWith f l = some l' → l'.length < l.length) :
    ∀ (n : Nat) (l : List Step), l.length ≤ n →
      scanWith f (runEngine f n l) = none := by
  intro n
  induction n with
  | zero =>
    intro l hl
    have hnil : l = [] := List.eq_nil_of_length_eq_zero (Nat.le_zero.mp hl)
    subst hnil
    simp [runEngine, scanWith]
  | succ n ih =>
    intro l hl
    rw [runEngine]
    cases h : scanWith f l with
    | none => simpa using h
    | some l' => exact ih l' (Nat.lt_succ_iff.mp (Nat.lt_of_lt_of_le (hs _ _ h) hl))

theorem runEngine_modes {f : List Step → Option (List Step)}
    (hg : ∀ l l', scanWith f l = some l' → GoodRewrite l l') :
    ∀ (n : Nat) (l : List Step),
      ((runEngine f n l).map Step.mode).head? = (l.map Step.mode).head? ∧
      dedupAdj ((runEngine f n l).map Step.mode) = dedupAdj (l.map Step.mode) := by
  intro n
  induction n with
  | zero => intro l; exact ⟨rfl, rfl⟩
  | succ n ih =>
    intro l
    rw [runEngine]
    cases h : scanWith f l with
    | none => exact ⟨rfl, rfl⟩
    | some l' =>
      obtain ⟨-, hh, hd⟩ := hg _ _ h
      obtain ⟨ihh, ihd⟩ := ih l'
      exact ⟨ihh.trans hh, ihd.trans hd⟩

theorem collapse_fixed_point (l : List Step) : scanOnce (collapse l) = none :=
  runEngine_fixed (fun _ _ h => scanOnce_shrink h) l.length l (Nat.le_refl _)

theorem collapse_of_fixed {l : List Step} (h : scanOnce l = none) : collapse l = l :=
  runEngine_of_none h

theorem collapse_idem (l : List Step) : collapse (collapse l) = collapse l :=
  collapse_of_fixed (collapse_fixed_point l)

theorem collapse_head_mode (l : List Step) :
    ((collapse l).map Step.mode).head? = (l.map Step.mode).head? :=
  (runEngine_modes (fun _ _ hx => scanOnce_good hx) l.length l).1

theorem collapse_modes (l : List Step) :
    dedupAdj ((collapse l).map Step.mode) = dedupAdj (l.map Step.mode) :=
  (runEngine_modes (fun _ _ hx => scanOnce_good hx) l.length l).2

theorem collapse_ne_nil {l : List Step} (h : l ≠ []) : collapse l ≠ [] := by
  intro hc
  cases l with
  | nil => exact h rfl
  | cons s rest =>
    have hm := collapse_head_mode (s :: rest)
    rw [hc] at hm
    simp at hm

theorem scanWith_none_cons {f : List Step → Option (List Step)} {s : Step}
    {rest : List Step} (h : scanWith f (s :: rest) = none) :
    f (s :: rest) = none ∧ scanWith f rest = none := by
  rw [scanWith] at h
  cases h1 : f (s :: rest) with
  | some r => rw [h1] at h; exact Option.noConfusion h
  | none =>
    rw [h1] at h
    cases h2 : scanWith f rest with
    | some r => rw [h2] at h; exact Option.noConfusion h
    | none => exact ⟨rfl, rfl⟩

theorem scanWith_none_suffix {f : List Step → Option (List Step)}
    (pre suf : List Step) (h : scanWith f (pre ++ suf) = none) :
    suf = [] ∨ f suf = none := by
  induction pre with
  | nil =>
    cases suf with
    | nil => exact Or.inl rfl
    | cons s rest => exact Or.inr (scanWith_none_cons (by simpa using h)).1
  | cons p pre' ih =>
    exact ih (scanWith_none_cons (by simpa using h)).2

theorem tryRulesHere_none_R6 {l : List Step} (h : tryRulesHere l = none) :
    tryR6 l = none := by
  unfold tryRulesHere at h
  cases h1 : tryR1 l with
  | some r => rw [h1] at h; exact Option.noConfusion h
  | none =>
  rw [h1] at h
  cases h2 : tryR2 l with
  | some r => rw [h2] at h; exact Option.noConfusion h
  | none =>
  rw [h2] at h
  cases h3 : tryR3 l with
  | some r => rw [h3] at h; exact Option.noConfusion h
  | none =>
  rw [h3] at h
  cases h4 : tryR4 l with
  | some r => rw [h4] at h; exact Option.noConfusion h
  | none =>
  rw [h4] at h
  cases h5 : tryR5 l with
  | some r => rw [h5] at h; exact Option.noConfusion h
  | none =>
  rw [h5] at h
  cases h6 : tryR6 l with
  | some r => rw [h6] at h; exact Option.noConfusion h
  | none => exact rfl

theorem tryR1_not_segregated (a b : Step) (rest : List Step)
    (h : shareCrossNames a b = false) : tryR1 (a :: b :: rest) = none := by
  rw [tryR1]
  split
  · rename_i hg
    rw [hg.2.2.2.2] at h
    exact Bool.noConfusion h
  · rfl

theorem collapse_no_stale_uselane (l pre suf : List Step) (a b : Step)
    (hc : collapse l = pre ++ a :: b :: suf) (ht : b.instr.type = .UseLane)
    (hm : a.mode = b.mode) : b.lane_description_changed = true := by
  have hfix := collapse_fixed_point l
  rw [hc] at hfix
  cases scanWith_none_suffix pre (a :: b :: suf) hfix with
  | inl hempty => exact List.noConfusion hempty
  | inr hnone =>
    have h6 := tryRulesHere_none_R6 hnone
    rw [tryR6] at h6
    split at h6
    · exact Option.noConfusion h6
    · rename_i hg
      cases hcb : b.lane_description_changed with
      | true => rfl
      | false => exact absurd ⟨ht, hcb, hm⟩ hg

end Guidance

namespace Guidance

/-- One directed edge of the route input, carrying the attributes of spec
section 3 together with the turn classification at its entry node (the
output of the upstream classifier C3, spec section 4.3) and two validity
bits modelled from spec section 7: whether the node data backing the edge
was present, and whether the one-way attributes at its entry node
contradict the traversal. -/
structure Edge where
  name : String
  ref : String := ""
  mode : TMode
  distance : Nat
  duration : Nat := 0
  instr : TurnInstruction
  entryNode : String
  exitNode : String
  crossNames : List String := []
  important : Bool := false
  is_sliproad : Bool := false
  is_link : Bool := false
  lane_description_changed : Bool := false
  nodeDataPresent : Bool := true
  onewayContradiction : Bool := false
deriving DecidableEq, Repr

/-- Modelled from the spec: a well-formed `EdgeSequence` is non-empty, has
node data for every edge, and no contradictory one-ways (spec section 7). -/
def wellFormedInput (es : List Edge) : Bool :=
  !es.isEmpty && es.all fun e => e.nodeDataPresent && !e.onewayContradiction

/-- The step opened for an edge (spec section 4.4). -/
def stepOfEdge (e : Edge) : Step :=
  { name := e.name, ref := e.ref, mode := e.mode, distance := e.distance,
    duration := e.duration, instr := e.instr, location := e.entryNode,
    exitLocation := e.exitNode, crossNames := e.crossNames,
    important := e.important, is_sliproad := e.is_sliproad,
    is_link := e.is_link,
    lane_description_changed := e.lane_description_changed }

/-- Modelled from the spec: the step builder C4 walks the edge sequence and
opens a new step whenever the traversed node's instruction is not `NoTurn`
or the name or travel mode changes; otherwise the edge is aggregated into
the current step (spec section 4.4).  The accumulator keeps the most
recent step at its head. -/
def addEdge (acc : List Step) (e : Edge) : List Step :=
  match acc with
  | [] => [stepOfEdge e]
  | s :: t =>
    if e.instr.type = .NoTurn ∧ e.name = s.name ∧ e.mode = s.mode then
      { s with
        distance := s.distance + e.distance
        duration := s.duration + e.duration
        exitLocation := e.exitNode } :: t
    else stepOfEdge e :: s :: t

/-- The step builder C4 (spec section 4.4). -/
def buildSteps (es : List Edge) : List Step :=
  (es.foldl addEdge []).reverse

/-- The single failure kind of the core (spec section 7). -/
inductive GuidanceFailure
  | InvalidRouteInput
deriving DecidableEq, Repr

/-- Modelled from the spec: the guidance core as a pure total function from
an edge sequence to a maneuver list or the single `InvalidRouteInput`
failure (spec sections 6 and 7): validate, build steps (C4), collapse (C5),
assemble maneuvers (C6). -/
def guidanceCore (es : List Edge) : Except GuidanceFailure (List Maneuver) :=
  if wellFormedInput es then
    .ok (assemble (collapse (buildSteps es)))
  else
    .error .InvalidRouteInput

theorem addEdge_ne_nil (acc : List Step) (e : Edge) : addEdge acc e ≠ [] := by
  cases acc with
  | nil => simp [addEdge]
  | cons s t => rw [addEdge]; split <;> simp

theorem foldl_addEdge_ne_nil :
    ∀ (es : List Edge) (acc : List Step), acc ≠ [] → es.foldl addEdge acc ≠ [] := by
  intro es
  induction es with
  | nil => intro acc h; simpa using h
  | cons e es' ih =>
    intro acc h
    simp only [List.foldl_cons]
    exact ih (addEdge acc e) (addEdge_ne_nil acc e)

theorem buildSteps_ne_nil {es : List Edge} (h : es ≠ []) : buildSteps es ≠ [] := by
  cases es with
  | nil => exact absurd rfl h
  | cons e es' =>
    rw [buildSteps]
    simp only [List.foldl_cons]
    intro hrev
    exact foldl_addEdge_ne_nil es' (addEdge [] e) (addEdge_ne_nil [] e)
      (List.reverse_eq_nil_iff.mp hrev)

theorem assemble_length (s : Step) (rest : List Step) :
    (assemble (s :: rest)).length = rest.length + 2 := by
  simp [assemble]

theorem assemble_head (s : Step) (rest : List Step) :
    (assemble (s :: rest)).head? =
      some ⟨s.location, .Depart, .Straight, s.name, s.mode⟩ := rfl

theorem assemble_getLast (s : Step) (rest : List Step) :
    ∃ m, (assemble (s :: rest)).getLast? = some m ∧ m.mtype = .Arrive := by
  refine ⟨⟨((s :: rest).getLastD s).exitLocation, .Arrive, .Straight,
    ((s :: rest).getLastD s).name, ((s :: rest).getLastD s).mode⟩, ?_, rfl⟩
  show (⟨s.location, .Depart, .Straight, s.name, s.mode⟩ ::
      (rest.map maneuverOfStep ++
        [⟨((s :: rest).getLastD s).exitLocation, .Arrive, .Straight,
          ((s :: rest).getLastD s).name, ((s :: rest).getLastD s).mode⟩])).getLast?
    = _
  rw [← List.cons_append]
  exact List.getLast?_concat _

end Guidance

namespace BoostAssert

/-- Possible observable outcomes of a failure-handler call, distinguishing
normal return, a catchable raised error, and process termination with the
text written to stderr beforehand. -/
inductive HandlerOutcome
  | returns
  | raisesCatchable (e : String)
  | terminates (stderrText : String)
deriving DecidableEq, Repr

/-- The text `assertion_failed_msg_helper` streams to stderr before calling
`std::terminate` (src/util/assert.cpp, lines 12-13). -/
def assertText (expr msg function file : String) (line : Int) : String :=
  "[assert] " ++ file ++ ":" ++ toString line ++ "\nin: " ++ function ++ ": "
    ++ expr ++ "\n" ++ msg

/-- `assertion_failed_msg_helper` prints the assertion context to stderr and
hard-aborts via `std::terminate` (src/util/assert.cpp, lines 9-15, declared
`[[noreturn]]`). -/
def assertion_failed_msg_helper (expr msg function file : String)
    (line : Int) : HandlerOutcome :=
  .terminates (assertText expr msg function file line)

/-- `boost::assertion_failed` forwards to the helper with an empty message
(src/util/assert.cpp, lines 21-24). -/
def assertion_failed (expr function file : String) (line : Int) : HandlerOutcome :=
  assertion_failed_msg_helper expr "" function file line

/-- `boost::assertion_failed_msg` forwards to the helper with the given
message (src/util/assert.cpp, lines 25-29). -/
def assertion_failed_msg (expr msg function file : String)
    (line : Int) : HandlerOutcome :=
  assertion_failed_msg_helper expr msg function file line

end BoostAssert

open Guidance BoostAssert

/-- Modifier rank used by the termination measure of the collapsing engine
(spec section 4.5, "a lexicographic (count, sum-of-modifier-rank)
measure"). -/
def modRank : TModifier → Nat
  | .Straight => 0
  | .SlightRight => 1
  | .SlightLeft => 1
  | .Right => 2
  | .Left => 2
  | .SharpRight => 3
  | .SharpLeft => 3
  | .UTurn => 4

/-- The lexicographic termination measure of the collapsing engine:
step count first, then the sum of the modifier ranks. -/
def stepMeasure (l : List Step) : Nat × Nat :=
  (l.length, (l.map fun s => modRank s.instr.modifier).sum)

/-- A valid single-edge input used to instantiate the totality claim. -/
def exGoodEdges : List Edge :=
  [ { name := "x", mode := .driving, distance := 10,
      instr := ⟨.Depart, .Straight⟩, entryNode := "a", exitNode := "b" } ]

/-- Claim C1: for every well-formed input edge sequence (length at least
one, node data present, no contradictory one-ways) the guidance core
succeeds with a maneuver list of length at least two whose first maneuver
is `Depart` and whose last is `Arrive`; a malformed input is reported as
the single failure kind `InvalidRouteInput` with no partial result. -/
theorem claim_C1 (es : List Edge) :
    (wellFormedInput es = true →
      ∃ ms, guidanceCore es = Except.ok ms ∧ 2 ≤ ms.length ∧
        (∃ m, ms.head? = some m ∧ m.mtype = TType.Depart) ∧
        (∃ m, ms.getLast? = some m ∧ m.mtype = TType.Arrive)) ∧
    (wellFormedInput es = false →
      guidanceCore es = Except.error GuidanceFailure.InvalidRouteInput) := by
  constructor
  · intro h
    have hne : es ≠ [] := by
      intro he
      rw [he] at h
      simp [wellFormedInput] at h
    have hcoll : collapse (buildSteps es) ≠ [] :=
      collapse_ne_nil (buildSteps_ne_nil hne)
    obtain ⟨s, rest, hsr⟩ : ∃ s rest, collapse (buildSteps es) = s :: rest := by
      cases hx : collapse (buildSteps es) with
      | nil => exact absurd hx hcoll
      | cons s rest => exact ⟨s, rest, rfl⟩
    refine ⟨assemble (collapse (buildSteps es)), by simp [guidanceCore, h], ?_, ?_, ?_⟩
    · rw [hsr, assemble_length]
      omega
    · rw [hsr, assemble_head]
      exact ⟨_, rfl, rfl⟩
    · rw [hsr]
      exact assemble_getLast s rest
  · intro h
    simp [guidanceCore, h]

theorem claim_C1_witness :
    (∃ ms, guidanceCore exGoodEdges = Except.ok ms ∧ 2 ≤ ms.length ∧
      (∃ m, ms.head? = some m ∧ m.mtype = TType.Depart) ∧
      (∃ m, ms.getLast? = some m ∧ m.mtype = TType.Arrive)) ∧
    guidanceCore [] = Except.error GuidanceFailure.InvalidRouteInput :=
  ⟨(claim_C1 exGoodEdges).1 (by decide), (claim_C1 []).2 (by decide)⟩

/-- Claim C2: at the fully segregated dual-carriageway crossing of the
scenario, route `a,l` yields exactly `[Depart at a, Turn Right "second" at
b, Arrive at l]` and route `a,h` yields exactly `[Depart at a, Continue
UTurn "first" at c, Arrive at h]`; the two adjacent half-turns of the
latter are merged into one net maneuver (the two turn steps become one). -/
theorem claim_C2 :
    assemble (collapse segAL) = segALExpected ∧
    assemble (collapse segAH) = segAHExpected ∧
    (collapse segAH).length + 1 = segAH.length := by
  decide

/-- Steps used to instantiate the cross-mode R4 exemption of claim C3. -/
def wStepA : Step :=
  { name := "r", mode := .driving, distance := 1,
    instr := ⟨.Depart, .Straight⟩, location := "a", exitLocation := "b" }

/-- Ferry middle step used to instantiate the cross-mode R4 exemption. -/
def wStepB : Step :=
  { name := "", mode := .ferryMode, distance := 1,
    instr := ⟨.Notification, .Right⟩, location := "b", exitLocation := "c" }

/-- Closing step used to instantiate the cross-mode R4 exemption. -/
def wStepC : Step :=
  { name := "r", mode := .driving, distance := 1,
    instr := ⟨.Notification, .Left⟩, location := "c", exitLocation := "d" }

/-- Claim C3: travel-mode boundaries are never collapsed away.  Collapsing
preserves the sequence of travel-mode runs of the step list, the assembler
emits one maneuver per retained step boundary (so every surviving mode
boundary surfaces as a maneuver), the ferry variant of the unnamed-jog
scenario keeps `Notification` maneuvers on both sides of the cross-mode
middle segment instead of suppressing it, the multi-ferry scenario is left
entirely uncollapsed, and the R4 suppression window never fires when
either of its boundaries is a mode change. -/
theorem claim_C3 :
    (∀ l : List Step,
      dedupAdj ((collapse l).map Step.mode) = dedupAdj (l.map Step.mode)) ∧
    (∀ (s : Step) (rest : List Step),
      (assemble (s :: rest)).length = (s :: rest).length + 1) ∧
    assemble (collapse ferryJogSteps) = ferryJogExpected ∧
    collapse modesSteps = modesSteps ∧
    (∀ (a b c : Step) (rest : List Step), ¬ a.mode = b.mode ∨ ¬ b.mode = c.mode →
      tryR4 (a :: b :: c :: rest) = none) := by
  refine ⟨collapse_modes, ?_, by decide, by decide, ?_⟩
  · intro s rest
    rw [assemble_length]
    simp
  · intro a b c rest hmode
    rw [tryR4]
    split
    · rename_i hg
      cases hmode with
      | inl hab => exact absurd hg.1 hab
      | inr hbc => exact absurd hg.2.1 hbc
    · rfl

theorem claim_C3_witness : tryR4 (wStepA :: wStepB :: wStepC :: []) = none :=
  claim_C3.2.2.2.2 wStepA wStepB wStepC [] (Or.inl (by decide))

/-- The single step the extended R4 window produces for the bridge route:
the three segments merged into one unnamed straight step from `a` to `d`. -/
def bridgeMerged : Step :=
  { name := "", mode := .driving, distance := 240,
    instr := ⟨.Depart, .Straight⟩, location := "a", exitLocation := "d" }

/-- Claim C4, counterexample: with R4 restricted to the spec's stated
precondition (middle step's name *empty*), the rule cannot fire on the
bridge window at all (the middle is named "Bridge") and the engine does not
produce the pinned `[Depart, Arrive]` result, leaving four maneuvers. -/
theorem claim_C4_counterexample :
    tryR4strict bridgeSteps = none ∧
    assemble (collapseStrict bridgeSteps) ≠ bridgeExpected ∧
    (assemble (collapseStrict bridgeSteps)).length = 4 ∧
    assemble (collapse bridgeSteps) = bridgeExpected := by
  decide

/-- Claim C4 (amended): the bridge route `a,d` yields exactly
`[Depart, Arrive]`, and the suppressing rule is R4 with its precondition
extended beyond the spec's stated middle-name-empty case: it fires when the
window shares a travel mode, the flanking names agree, the middle name
differs from them, and either the middle is unnamed or both boundary
modifiers are straight / very slight.  The middle-name-empty reading of the
precondition still covers the unnamed-jog scenario. -/
theorem claim_C4 :
    assemble (collapse bridgeSteps) = bridgeExpected ∧
    tryR4 bridgeSteps = some [bridgeMerged] ∧
    assemble (collapse noNameSteps) = noNameExpected := by
  decide

/-- The first turn step of the close-turns scenario, used to instantiate
the non-segregated R1 refusal. -/
def closeB : Step :=
  { name := "cross", mode := .driving, distance := 40,
    instr := ⟨.Turn, .Right⟩, location := "b", exitLocation := "c",
    crossNames := ["straight"] }

/-- The second turn step of the close-turns scenario. -/
def closeC : Step :=
  { name := "out", mode := .driving, distance := 20,
    instr := ⟨.Turn, .Left⟩, location := "c", exitLocation := "d",
    crossNames := ["reverse"] }

/-- Claim C5, counterexample: the close-turns route does yield the pinned
maneuver list `[Depart, Turn Right at b, Turn Left at c, Arrive]`, but that
list has four maneuvers, not the three the claim states. -/
theorem claim_C5_counterexample :
    assemble (collapse closeTurnsSteps) = closeTurnsExpected ∧
    closeTurnsExpected.length ≠ 3 := by
  decide

/-- Claim C5 (amended): two adjacent right-angle turns with different
street names that do not form a segregated pair are never merged: the
close-turns route `a,d` yields the *four* maneuvers `[Depart, Turn Right at
b, Turn Left at c, Arrive]` with both turns retained, and the segregated
pair merge R1 refuses every pair whose turn nodes share no cross-road
name. -/
theorem claim_C5 :
    assemble (collapse closeTurnsSteps) = closeTurnsExpected ∧
    closeTurnsExpected.length = 4 ∧
    (∀ (a b : Step) (rest : List Step), shareCrossNames a b = false →
      tryR1 (a :: b :: rest) = none) :=
  ⟨by decide, by decide, tryR1_not_segregated⟩

theorem claim_C5_witness : tryR1 (closeB :: closeC :: ([] : List Step)) = none :=
  claim_C5.2.2 closeB closeC [] (by decide)

/-- The opening step of the lane-change scenario (named copy used to
instantiate the UseLane retention claim). -/
def laneHead : Step :=
  { name := "main", mode := .driving, distance := 120,
    instr := ⟨.Depart, .Straight⟩, location := "a", exitLocation := "c" }

/-- The retained `UseLane` step of the lane-change scenario. -/
def laneUse : Step :=
  { name := "main", mode := .driving, distance := 120,
    instr := ⟨.UseLane, .Straight⟩, location := "c", exitLocation := "e",
    lane_description_changed := true }

/-- Claim C6: a `UseLane` step survives collapsing exactly when its lane
description changed.  With changing lanes the route yields
`[Depart, UseLane Straight at c, Arrive]`; with identical lane sets it
yields `[Depart, Arrive]`; and in any collapsed step list, a non-initial
`UseLane` step whose predecessor shares its travel mode has
`lane_description_changed = true`. -/
theorem claim_C6 :
    assemble (collapse laneChangeSteps) = laneChangeExpected ∧
    assemble (collapse laneSameSteps) = laneSameExpected ∧
    (∀ (l pre suf : List Step) (a b : Step),
      collapse l = pre ++ a :: b :: suf → b.instr.type = .UseLane →
      a.mode = b.mode → b.lane_description_changed = true) :=
  ⟨by decide, by decide, collapse_no_stale_uselane⟩

theorem claim_C6_witness : laneUse.lane_description_changed = true :=
  claim_C6.2.2 laneChangeSteps [] [] laneHead laneUse (by decide) (by decide)
    (by decide)

/-- Claim C7: the u-turn-onto-a-ferry route yields exactly the pinned
sequence `Depart, Notification Straight, Notification Straight, Continue
UTurn, Turn Straight, Notification Straight, Arrive` at locations
`k,g,a,b,d,e,j`. -/
theorem claim_C7 : assemble (collapse ferryUTurnSteps) = ferryUTurnExpected := by
  decide

/-- Claim C8: the collapsing engine is idempotent.  A step list on which a
full scan produces no rewrite is returned unchanged, and consequently
running the engine on its own output is a no-op. -/
theorem claim_C8 :
    (∀ l : List Step, scanOnce l = none → collapse l = l) ∧
    (∀ l : List Step, collapse (collapse l) = collapse l) :=
  ⟨fun _ h => collapse_of_fixed h, collapse_idem⟩

theorem claim_C8_witness : collapse modesSteps = modesSteps :=
  claim_C8.1 modesSteps (by decide)

/-- The merged step a scan produces from the identical-lane scenario, used
to instantiate the termination-measure claim. -/
def laneMergedW : Step :=
  { name := "main", mode := .driving, distance := 240,
    instr := ⟨.Depart, .Straight⟩, location := "a", exitLocation := "e" }

/-- Claim C9: every rewrite the collapsing engine applies strictly reduces
the step count, hence strictly reduces the lexicographic
(count, sum-of-modifier-rank) measure, and the scan loop always reaches a
fixed point: scanning the engine's output produces no further rewrite. -/
theorem claim_C9 :
    (∀ l l' : List Step, scanOnce l = some l' →
      l'.length < l.length ∧
      Prod.Lex (· < ·) (· < ·) (stepMeasure l') (stepMeasure l)) ∧
    (∀ l : List Step, scanOnce (collapse l) = none) := by
  constructor
  · intro l l' h
    have hlen := scanOnce_shrink h
    exact ⟨hlen, Prod.Lex.left _ _ hlen⟩
  · exact collapse_fixed_point

theorem claim_C9_witness :
    [laneMergedW].length < laneSameSteps.length ∧
    Prod.Lex (· < ·) (· < ·) (stepMeasure [laneMergedW])
      (stepMeasure laneSameSteps) :=
  claim_C9.1 laneSameSteps [laneMergedW] (by decide)

/-- Claim C10: both Boost assertion handlers forward to the helper, which
prints the expression, function, file, line and message to stderr and then
calls `std::terminate`; neither handler returns nor raises a catchable
error, in contrast with the `InvalidRouteInput` reporting path of the
guidance core. -/
theorem claim_C10 (expr msg function file : String) (line : Int) :
    assertion_failed expr function file line =
      HandlerOutcome.terminates (assertText expr "" function file line) ∧
    assertion_failed_msg expr msg function file line =
      HandlerOutcome.terminates
        ("[assert] " ++ file ++ ":" ++ toString line ++ "\nin: " ++ function
          ++ ": " ++ expr ++ "\n" ++ msg) ∧
    (∀ e, assertion_failed expr function file line ≠
      HandlerOutcome.raisesCatchable e) ∧
    (∀ e, assertion_failed_msg expr msg function file line ≠
      HandlerOutcome.raisesCatchable e) ∧
    assertion_failed expr function file line ≠ HandlerOutcome.returns ∧
    assertion_failed_msg expr msg function file line ≠ HandlerOutcome.returns :=
  ⟨rfl, rfl,
    fun _ h => HandlerOutcome.noConfusion h,
    fun _ h => HandlerOutcome.noConfusion h,
    fun h => HandlerOutcome.noConfusion h,
    fun h => HandlerOutcome.noConfusion h⟩
